import Mathlib

/-!
Shallow embedding of the S3-manager library (Go package `s3_manager`,
files `domain.go` and `s3_manager.go`) together with proofs about its
path-resolution mechanism and facade operations.

Modelling conventions:
* Pure Go code is translated directly into Lean functions.
* `fmt.Sprintf` applied to one `int64` argument is modelled by
  `sprintfInt64`, reproducing Go's behaviour for the verb forms that
  arise from catalog patterns (`%d`, `%v`, `%s`, `%%`, unknown
  single-character verbs, a trailing `%`, missing and extra arguments);
  flag/width/precision syntax is not used by the repository's patterns.
* The Go map `storagePaths` is modelled as an association list where
  `AddCatalog` prepends, so lookup finds the most recent registration,
  matching the map's insert-or-overwrite semantics.
* Each operation that performs network I/O takes the external client's
  response as an explicit parameter and returns, besides its Go result,
  the list of client calls it issued (`S3Call`), so that "performs no
  network call" is the statement that this list is empty.
* Go `error` results are modelled as `Except String`, with `fmt.Errorf`
  wrapping modelled as string concatenation.
* `NewS3Manager` receives the `Config` by pointer and mutates its
  `RootCatalog` field in place; `newS3ManagerCfg` gives the value of the
  pointed-to `Config` after the call, so a second construction call with
  the same `Config` pointer is modelled by composing `newS3ManagerCfg`.
  The possible failure of `config.LoadDefaultConfig` belongs to the
  external client and is not modelled.
-/

deriving instance DecidableEq for Except

namespace S3M

/-- Go `CatalogType` (`domain.go`): an opaque string identifier. -/
abbrev CatalogType := String

/-- Go `Config` (`domain.go`).  `PresignedURLExpireTime` is a
`time.Duration`, i.e. an `int64` count of nanoseconds, modelled as `Int`
(no arithmetic is performed on it, so overflow is irrelevant). -/
structure Config where
  Endpoint : String
  Region : String
  AccessKey : String
  SecretKey : String
  Name : String
  RootCatalog : String
  CDN : String
  PresignedURLExpireTime : Int
  deriving DecidableEq

/-- Go `StoragePath` (`domain.go`).  `EntityID` is an `int64`, modelled
as `Int` (it is only formatted, never computed with). -/
structure StoragePath where
  RootCatalog : String
  CatalogType : CatalogType
  EntityID : Int
  CustomPath : String
  deriving DecidableEq

/-- Go `BucketFile` (`domain.go`): `File` is an `io.ReadSeeker`
interface value, which may be nil, modelled as an optional byte
sequence; `Name` is the file name. -/
structure BucketFile where
  File : Option (List Nat)
  Name : String
  deriving DecidableEq

/-- Go `s3Manager` struct (`domain.go`).  The `client *s3.Client` field
is the external collaborator and has no state visible to this library,
so it is omitted; its responses are passed to each operation
explicitly. -/
structure s3Manager where
  cfg : Config
  storagePaths : List (CatalogType × String)
  deriving DecidableEq

/-- Go `PathCustomCatalog` constant (`domain.go`). -/
def PathCustomCatalog : CatalogType := "custom_catalog"

/-- Lookup in the modelled `storagePaths` map: first matching entry
wins, mirroring map lookup with `AddCatalog` prepending on overwrite. -/
def lookupCatalog : List (CatalogType × String) → CatalogType → Option String
  | [], _ => none
  | (k, v) :: rest, t => if k = t then some v else lookupCatalog rest t

/-- Go `AddCatalog` (`s3_manager.go` lines 189-194): inserts or
overwrites the pattern for `catalogType` in the registry. -/
def AddCatalog (storagePaths : List (CatalogType × String))
    (catalogType : CatalogType) (pathPattern : String) :
    List (CatalogType × String) :=
  (catalogType, pathPattern) :: storagePaths

/-- Core of the `fmt.Sprintf(format, n)` model for a single `int64`
argument `n`.  `pending` records that a `%` has been read and its verb
is awaited; `consumed` records that the argument has been used.
Reproduces Go's output: `%d`/`%v` print the decimal, `%%` prints `%`,
any other verb `c` prints `%!c(int64=N)` (still consuming the
argument), a verb after the argument is consumed prints
`%!c(MISSING)`, a trailing `%` prints `%!(NOVERB)`, and an unconsumed
argument appends `%!(EXTRA int64=N)`. -/
def sprintfInt64Aux (n : Int) (pending : Bool) (consumed : Bool) :
    List Char → List Char
  | [] =>
    (if pending then "%!(NOVERB)".data else []) ++
      (if consumed then [] else ("%!(EXTRA int64=" ++ toString n ++ ")").data)
  | c :: rest =>
    if pending then
      if c = '%' then
        '%' :: sprintfInt64Aux n false consumed rest
      else if consumed then
        '%' :: '!' :: c :: "(MISSING)".data ++ sprintfInt64Aux n false true rest
      else if c = 'd' ∨ c = 'v' then
        (toString n).data ++ sprintfInt64Aux n false true rest
      else
        '%' :: '!' :: c :: ("(int64=" ++ toString n ++ ")").data ++
          sprintfInt64Aux n false true rest
    else
      if c = '%' then sprintfInt64Aux n true consumed rest
      else c :: sprintfInt64Aux n false consumed rest

/-- Go `fmt.Sprintf(format, n)` for a single `int64` argument. -/
def sprintfInt64 (format : String) (n : Int) : String :=
  ⟨sprintfInt64Aux n false false format.data⟩

/-- The value of the caller's `*Config` after `NewS3Manager`
(`s3_manager.go` lines 26-30): with the test flag set the constructor
executes `cfg.RootCatalog += "test/"` on the pointed-to struct. -/
def newS3ManagerCfg (cfg : Config) (isTestServer : Bool) : Config :=
  if isTestServer then { cfg with RootCatalog := cfg.RootCatalog ++ "test/" } else cfg

/-- Go `NewS3Manager` (`s3_manager.go` lines 26-52), success path of the
external `LoadDefaultConfig` call: builds the manager over the (possibly
mutated) config and pre-registers the custom catalog with pattern
`"%s"`. -/
def NewS3Manager (cfg : Config) (isTestServer : Bool) : s3Manager :=
  let cfg2 := newS3ManagerCfg cfg isTestServer
  { cfg := cfg2, storagePaths := AddCatalog [] PathCustomCatalog "%s" }

/-- Go `GetCatalogPattern` (`s3_manager.go` lines 179-186): looks the
catalog type up in the registry, returns `""` on a miss, and otherwise
returns `fmt.Sprintf(storagePath.RootCatalog+pathPattern,
storagePath.EntityID)`.  Note that the argument is always `EntityID`;
`CustomPath` is never read. -/
def GetCatalogPattern (r : s3Manager) (storagePath : StoragePath) : String :=
  match lookupCatalog r.storagePaths storagePath.CatalogType with
  | none => ""
  | some pathPattern =>
      sprintfInt64 (storagePath.RootCatalog ++ pathPattern) storagePath.EntityID

/-- One call issued to the external S3 client, with the request fields
this library fills in. -/
inductive S3Call where
  | listObjectsV2 (bucket : String) (keyPrefix : String)
  | putObject (bucket : String) (key : String) (acl : String)
  | deleteObjects (bucket : String) (keys : List (Option String)) (quiet : Bool)
  | presignPutObject (bucket : String) (key : String) (expires : Int)
  deriving DecidableEq

/-- Go `GetFiles` (`s3_manager.go` lines 55-77).  `listResp` is the
external `ListObjectsV2` outcome; on success it carries the `Key`
pointer (possibly nil) of each returned object.  Objects with a nil key
are skipped; each remaining key becomes `endpoint/bucket/key`. -/
def GetFiles (r : s3Manager) (keyPrefix : String)
    (listResp : Except String (List (Option String))) :
    Except String (List String) × List S3Call :=
  match listResp with
  | .error e =>
      (.error ("GetFiles/ListObjectsV2: " ++ e),
       [.listObjectsV2 r.cfg.Name keyPrefix])
  | .ok contents =>
      (.ok (contents.filterMap (fun k =>
          k.map (fun key => r.cfg.Endpoint ++ "/" ++ r.cfg.Name ++ "/" ++ key))),
       [.listObjectsV2 r.cfg.Name keyPrefix])

/-- Go `GetObjectURL` (`s3_manager.go` lines 197-213): pure; rejects an
empty file name, overwrites `RootCatalog` from the config, and builds
either the CDN-form or the raw-form URL. -/
def GetObjectURL (r : s3Manager) (storagePath : StoragePath) (fileName : String) :
    Except String String :=
  if fileName = "" then .error "GetObjectURL: file name is empty"
  else
    let sp := { storagePath with RootCatalog := r.cfg.RootCatalog }
    let fullPath := GetCatalogPattern r sp ++ fileName
    if r.cfg.CDN ≠ "" then .ok (r.cfg.CDN ++ "/" ++ fullPath)
    else .ok (r.cfg.Endpoint ++ "/" ++ r.cfg.Name ++ "/" ++ fullPath)

/-- Go `PutFile` (`s3_manager.go` lines 80-106).  `data` is the
`*BucketFile` pointer (nilable).  Validation happens before any request
is built; `putResp` is the external `PutObject` outcome. -/
def PutFile (r : s3Manager) (storagePath : StoragePath) (data : Option BucketFile)
    (putResp : Except String Unit) :
    Except String String × List S3Call :=
  match data with
  | none => (.error "PutFile: invalid file data", [])
  | some d =>
    if d.File = none ∨ d.Name = "" then
      (.error "PutFile: invalid file data", [])
    else
      let sp := { storagePath with RootCatalog := r.cfg.RootCatalog }
      let fullPath := GetCatalogPattern r sp ++ d.Name
      match putResp with
      | .error e =>
          (.error ("PutFile/PutObject: " ++ e),
           [.putObject r.cfg.Name fullPath "public-read"])
      | .ok _ =>
          match GetObjectURL r sp d.Name with
          | .error e =>
              (.error ("PutFile/GetObjectURL: " ++ e),
               [.putObject r.cfg.Name fullPath "public-read"])
          | .ok url =>
              (.ok url, [.putObject r.cfg.Name fullPath "public-read"])

/-- Go `DeleteFiles` (`s3_manager.go` lines 109-149): overwrites
`RootCatalog` from the config, lists objects under the computed
`fullPath`, succeeds as a no-op when zero objects match, and otherwise
bulk-deletes every listed key (nil keys included, unlike `GetFiles`). -/
def DeleteFiles (r : s3Manager) (storagePath : StoragePath) (fileName : String)
    (listResp : Except String (List (Option String)))
    (deleteResp : Except String Unit) :
    Except String Unit × List S3Call :=
  let sp := { storagePath with RootCatalog := r.cfg.RootCatalog }
  let fullPath := GetCatalogPattern r sp ++ fileName
  match listResp with
  | .error e =>
      (.error ("DeleteFiles/ListObjectsV2: " ++ e),
       [.listObjectsV2 r.cfg.Name fullPath])
  | .ok contents =>
    if contents.length = 0 then
      (.ok (), [.listObjectsV2 r.cfg.Name fullPath])
    else
      match deleteResp with
      | .error e =>
          (.error ("DeleteFiles/DeleteObjects: " ++ e),
           [.listObjectsV2 r.cfg.Name fullPath,
            .deleteObjects r.cfg.Name contents true])
      | .ok _ =>
          (.ok (), [.listObjectsV2 r.cfg.Name fullPath,
            .deleteObjects r.cfg.Name contents true])

/-- Go `GetUploadPresignedURL` (`s3_manager.go` lines 152-176): rejects
an empty file name, overwrites `RootCatalog` from the config, replaces a
zero expiry with the configured default, and presigns a put for the
computed key.  `presignResp` is the external presign outcome. -/
def GetUploadPresignedURL (r : s3Manager) (storagePath : StoragePath)
    (fileName : String) (expireTime : Int)
    (presignResp : Except String String) :
    Except String String × List S3Call :=
  if fileName = "" then
    (.error "GetUploadPresignedURL: file name is empty", [])
  else
    let sp := { storagePath with RootCatalog := r.cfg.RootCatalog }
    let fullPath := GetCatalogPattern r sp ++ fileName
    let expire := if expireTime = 0 then r.cfg.PresignedURLExpireTime else expireTime
    match presignResp with
    | .error e =>
        (.error ("GetUploadPresignedURL/PresignPutObject: failed to create presigned request: " ++ e),
         [.presignPutObject r.cfg.Name fullPath expire])
    | .ok url =>
        (.ok url, [.presignPutObject r.cfg.Name fullPath expire])

/-! ### Concrete fixtures used by witnesses -/

/-- A concrete configuration used as a witness input. -/
def exampleCfg : Config :=
  { Endpoint := "https://s3.example.com", Region := "us-east-1",
    AccessKey := "ak", SecretKey := "sk", Name := "mybucket",
    RootCatalog := "svc/", CDN := "", PresignedURLExpireTime := 900 }

/-- A concrete manager with one registered catalog, used as a witness
input. -/
def exampleManager : s3Manager :=
  { cfg := exampleCfg, storagePaths := [("product", "products/%d/")] }

/-- A concrete storage path for the registered catalog, used as a
witness input.  Its `RootCatalog` field is deliberately different from
the configured one, to exercise the facade's overwriting of that
field. -/
def examplePath : StoragePath :=
  { RootCatalog := "caller/", CatalogType := "product", EntityID := 42,
    CustomPath := "" }

/-! ### Helper lemmas about the `fmt.Sprintf` model and the resolver -/

/-- Characters without `%` are copied through the formatter verbatim,
leaving the scanner state unchanged. -/
theorem sprintfInt64Aux_copy (n : Int) (consumed : Bool) (l rest : List Char)
    (h : '%' ∉ l) :
    sprintfInt64Aux n false consumed (l ++ rest)
      = l ++ sprintfInt64Aux n false consumed rest := by
  induction l with
  | nil => rfl
  | cons c l ih =>
    have hc : ¬ (c = '%') := fun hc => h (by simp [hc])
    have hl : '%' ∉ l := fun hm => h (List.mem_cons_of_mem c hm)
    simp only [List.cons_append, sprintfInt64Aux, Bool.false_eq_true, if_false,
      hc, ite_false]
    exact congrArg (List.cons c) (ih hl)

/-- A `%`-free tail after the argument was consumed is returned
verbatim. -/
theorem sprintfInt64Aux_copy_done (n : Int) (l : List Char) (h : '%' ∉ l) :
    sprintfInt64Aux n false true l = l := by
  have h2 := sprintfInt64Aux_copy n true l [] h
  simpa [show sprintfInt64Aux n false true ([] : List Char) = [] from rfl] using h2

/-- A `%d` verb with the argument still available prints the decimal
representation and consumes the argument. -/
theorem sprintfInt64Aux_verb_d (n : Int) (rest : List Char) :
    sprintfInt64Aux n false false ('%' :: 'd' :: rest)
      = (toString n).data ++ sprintfInt64Aux n false true rest := rfl

theorem string_data_append (x y : String) : (x ++ y).data = x.data ++ y.data := rfl

theorem string_append_assoc (x y z : String) : x ++ y ++ z = x ++ (y ++ z) :=
  String.ext (by simp [string_data_append, List.append_assoc])

/-- `fmt.Sprintf` on a format with exactly one `%d` slot and `%`-free
surroundings is plain splicing of the decimal representation. -/
theorem sprintfInt64_concat (a b : String) (n : Int)
    (ha : '%' ∉ a.data) (hb : '%' ∉ b.data) :
    sprintfInt64 (a ++ "%d" ++ b) n = a ++ toString n ++ b := by
  apply String.ext
  show sprintfInt64Aux n false false ((a ++ "%d" ++ b).data)
      = (a ++ toString n ++ b).data
  rw [string_data_append, string_data_append, string_data_append,
    string_data_append]
  rw [show ("%d" : String).data = ['%', 'd'] from rfl]
  rw [List.append_assoc]
  rw [sprintfInt64Aux_copy n false a.data _ ha]
  rw [show (['%', 'd'] ++ b.data : List Char) = '%' :: 'd' :: b.data from rfl]
  rw [sprintfInt64Aux_verb_d, sprintfInt64Aux_copy_done n b.data hb]
  exact (List.append_assoc a.data (toString n).data b.data).symm

/-- An unregistered catalog type resolves to the empty string. -/
theorem getCatalogPattern_of_miss (r : s3Manager) (sp : StoragePath)
    (h : lookupCatalog r.storagePaths sp.CatalogType = none) :
    GetCatalogPattern r sp = "" := by
  unfold GetCatalogPattern
  rw [h]

/-- A registered catalog type resolves by formatting
`RootCatalog ++ pattern` with `EntityID`. -/
theorem getCatalogPattern_of_hit (r : s3Manager) (sp : StoragePath) (p : String)
    (h : lookupCatalog r.storagePaths sp.CatalogType = some p) :
    GetCatalogPattern r sp = sprintfInt64 (sp.RootCatalog ++ p) sp.EntityID := by
  unfold GetCatalogPattern
  rw [h]

/-- Mapping a URL synthesizer over present keys equals first dropping
the absent keys and then mapping. -/
theorem filterMap_map_eq (f : String → String) (l : List (Option String)) :
    l.filterMap (fun k => k.map f) = (l.filterMap id).map f := by
  induction l with
  | nil => rfl
  | cons k l ih => cases k <;> simp [ih]

/-! ### Claims -/

/-- C1: the claim states that for a `StoragePath` with the
custom-catalog type and `CustomPath = p`, `GetCatalogPattern`
substitutes the string `p`, branching on catalog type to pick which
field to substitute.  The code does neither: `GetCatalogPattern` always
formats `EntityID` and never reads `CustomPath`, so with the built-in
pattern `"%s"` the custom-catalog path becomes Go's formatting error
text `%!s(int64=N)` instead of the custom path.  This theorem evaluates
the resolver at the failing input and shows it is independent of
`CustomPath`. -/
theorem c1_customPath_never_substituted :
    GetCatalogPattern (NewS3Manager exampleCfg false)
        { RootCatalog := "", CatalogType := PathCustomCatalog, EntityID := 7,
          CustomPath := "a/b/" } = "%!s(int64=7)" ∧
    ("%!s(int64=7)" : String) ≠ "a/b/" ∧
    ∀ (r : s3Manager) (sp : StoragePath) (p : String),
      GetCatalogPattern r { sp with CustomPath := p } = GetCatalogPattern r sp :=
  ⟨by decide, by decide, fun _ _ _ => rfl⟩

/-- C2 counterexample: constructing twice with the test flag and the
same `Config` (which Go passes by pointer and mutates in place via
`cfg.RootCatalog += "test/"`) appends two `"test/"` segments, so the
appending IS cumulative across repeated construction calls, refuting
the claim as stated. -/
theorem c2_counterexample :
    (newS3ManagerCfg (newS3ManagerCfg exampleCfg true) true).RootCatalog
      = "svc/test/test/" ∧
    ("svc/test/test/" : String) ≠ "svc/test/" :=
  ⟨by decide, by decide⟩

/-- C2 (amended): one construction call with the test flag appends
exactly one `"test/"` segment to the `Config`'s `RootCatalog`, with the
flag unset the `Config` is unchanged, and a second construction call on
the same (pointer-shared, mutated-in-place) `Config` appends a further
segment. -/
theorem c2_testmode_append (cfg : Config) :
    (newS3ManagerCfg cfg true).RootCatalog = cfg.RootCatalog ++ "test/" ∧
    newS3ManagerCfg cfg false = cfg ∧
    (NewS3Manager cfg true).cfg.RootCatalog = cfg.RootCatalog ++ "test/" ∧
    (NewS3Manager cfg false).cfg = cfg ∧
    (newS3ManagerCfg (newS3ManagerCfg cfg true) true).RootCatalog
      = cfg.RootCatalog ++ "test/" ++ "test/" :=
  ⟨rfl, rfl, rfl, rfl, rfl⟩

/-- C3: for a `StoragePath` whose catalog type has no registry entry,
`GetCatalogPattern` returns exactly the empty string, regardless of
`RootCatalog`, `EntityID` and `CustomPath` (the result type carries no
error channel, so this is not an error). -/
theorem c3_unregistered_resolves_empty (r : s3Manager) (sp : StoragePath)
    (h : lookupCatalog r.storagePaths sp.CatalogType = none) :
    GetCatalogPattern r sp = "" :=
  getCatalogPattern_of_miss r sp h

/-- C3 witness: the catalog type `"user"` is not registered in the
example manager, and resolution returns the empty string even though
every other field is non-trivial. -/
theorem c3_witness :
    lookupCatalog exampleManager.storagePaths ("user" : CatalogType) = none ∧
    GetCatalogPattern exampleManager
      { RootCatalog := "r/", CatalogType := "user", EntityID := 5,
        CustomPath := "c/" } = "" :=
  ⟨by decide,
   c3_unregistered_resolves_empty exampleManager
     { RootCatalog := "r/", CatalogType := "user", EntityID := 5,
       CustomPath := "c/" } (by decide)⟩

/-- C4 counterexample: the claim quantifies over every root prefix `r`,
but the code formats `Sprintf(r ++ pattern, n)`, so a root prefix
containing a `%` verb steals the argument.  With `r = "%d"` and the
registered pattern `"users/%d/"` the code yields
`"5users/%!d(MISSING)/"`, which differs from the claimed
`r ++ format(pattern, n) = "%dusers/5/"`. -/
theorem c4_counterexample :
    GetCatalogPattern { cfg := exampleCfg, storagePaths := [("user", "users/%d/")] }
        { RootCatalog := "%d", CatalogType := "user", EntityID := 5,
          CustomPath := "" }
      = "5users/%!d(MISSING)/" ∧
    ("%d" : String) ++ sprintfInt64 "users/%d/" 5 = "%dusers/5/" ∧
    ("5users/%!d(MISSING)/" : String) ≠ "%dusers/5/" :=
  ⟨by decide, by decide, by decide⟩

/-- C4 (amended): for every catalog type registered with a pattern
containing one numeric `%d` slot and otherwise `%`-free, and every
root prefix containing no `%`, `GetCatalogPattern` equals the root
prefix concatenated with the pattern formatted with the entity id. -/
theorem c4_registered_pattern_resolution (r : s3Manager) (sp : StoragePath)
    (a b : String)
    (hreg : lookupCatalog r.storagePaths sp.CatalogType = some (a ++ "%d" ++ b))
    (ha : '%' ∉ a.data) (hb : '%' ∉ b.data) (hr : '%' ∉ sp.RootCatalog.data) :
    GetCatalogPattern r sp
      = sp.RootCatalog ++ sprintfInt64 (a ++ "%d" ++ b) sp.EntityID ∧
    sprintfInt64 (a ++ "%d" ++ b) sp.EntityID = a ++ toString sp.EntityID ++ b := by
  have hra : '%' ∉ (sp.RootCatalog ++ a).data := by
    rw [string_data_append]
    intro hm
    rcases List.mem_append.mp hm with hm | hm
    exacts [hr hm, ha hm]
  have hassoc : sp.RootCatalog ++ (a ++ "%d" ++ b)
      = (sp.RootCatalog ++ a) ++ "%d" ++ b :=
    String.ext (by simp [string_data_append, List.append_assoc])
  have key : GetCatalogPattern r sp
      = (sp.RootCatalog ++ a) ++ toString sp.EntityID ++ b := by
    rw [getCatalogPattern_of_hit r sp _ hreg, hassoc,
      sprintfInt64_concat _ _ _ hra hb]
  have hc : sprintfInt64 (a ++ "%d" ++ b) sp.EntityID
      = a ++ toString sp.EntityID ++ b :=
    sprintfInt64_concat a b sp.EntityID ha hb
  refine ⟨?_, hc⟩
  rw [key, hc]
  exact String.ext (by simp [string_data_append, List.append_assoc])

/-- C4 witness: the example manager's `"product"` catalog with pattern
`"products/%d/"`, root `"/svc/"` and entity id 42 resolves to
`"/svc/products/42/"`. -/
theorem c4_witness :
    lookupCatalog exampleManager.storagePaths ("product" : CatalogType)
      = some ("products/" ++ "%d" ++ "/") ∧
    ('%' ∉ ("products/" : String).data) ∧
    GetCatalogPattern exampleManager
      { RootCatalog := "/svc/", CatalogType := "product", EntityID := 42,
        CustomPath := "" } = "/svc/products/42/" :=
  ⟨by decide, by decide,
   ((c4_registered_pattern_resolution exampleManager
      { RootCatalog := "/svc/", CatalogType := "product", EntityID := 42,
        CustomPath := "" } "products/" "/" (by decide) (by decide) (by decide)
      (by decide)).1).trans (by decide)⟩

/-- C5: `PutFile` with a nil descriptor, a nil stream, or an empty file
name returns the invalid-input error and issues no client call. -/
theorem c5_putfile_invalid_no_call (r : s3Manager) (sp : StoragePath)
    (data : Option BucketFile) (putResp : Except String Unit)
    (h : data = none ∨ ∃ d, data = some d ∧ (d.File = none ∨ d.Name = "")) :
    PutFile r sp data putResp = (.error "PutFile: invalid file data", []) := by
  rcases h with rfl | ⟨d, rfl, hd⟩
  · rfl
  · simp [PutFile, hd]

/-- C5 witness: a nil descriptor and a descriptor with an empty name
are both rejected without any client call. -/
theorem c5_witness :
    PutFile exampleManager examplePath none (.ok ())
      = (.error "PutFile: invalid file data", []) ∧
    PutFile exampleManager examplePath (some { File := some [1, 2], Name := "" })
      (.ok ()) = (.error "PutFile: invalid file data", []) :=
  ⟨c5_putfile_invalid_no_call exampleManager examplePath none (.ok ())
     (Or.inl rfl),
   c5_putfile_invalid_no_call exampleManager examplePath
     (some { File := some [1, 2], Name := "" }) (.ok ())
     (Or.inr ⟨_, rfl, Or.inr rfl⟩)⟩

/-- C6: when the listing under the computed delete path returns zero
objects, `DeleteFiles` returns success and its call trace contains only
the listing call — the bulk-delete operation is never invoked,
whatever its would-be outcome. -/
theorem c6_delete_empty_listing_noop (r : s3Manager) (sp : StoragePath)
    (fileName : String) (deleteResp : Except String Unit) :
    DeleteFiles r sp fileName (.ok []) deleteResp
      = (.ok (), [S3Call.listObjectsV2 r.cfg.Name
          (GetCatalogPattern r { sp with RootCatalog := r.cfg.RootCatalog }
            ++ fileName)]) := rfl

/-- C7: for a non-empty file name, `GetObjectURL` returns the CDN form
`cdn/fullKey` when a CDN host is configured (non-empty) and the raw
form `endpoint/bucket/fullKey` otherwise, where `fullKey` is the
catalog path resolved from the configured `RootCatalog` followed by the
file name.  The operation is modelled as a pure function: it issues no
client call. -/
theorem c7_getObjectURL_forms (r : s3Manager) (sp : StoragePath)
    (fileName : String) (h : fileName ≠ "") :
    GetObjectURL r sp fileName
      = (if r.cfg.CDN ≠ "" then
           .ok (r.cfg.CDN ++ "/"
             ++ (GetCatalogPattern r { sp with RootCatalog := r.cfg.RootCatalog }
                 ++ fileName))
         else
           .ok (r.cfg.Endpoint ++ "/" ++ r.cfg.Name ++ "/"
             ++ (GetCatalogPattern r { sp with RootCatalog := r.cfg.RootCatalog }
                 ++ fileName))) := by
  simp only [GetObjectURL]
  rw [if_neg h]

/-- C7 witness: with an empty CDN setting the URL is the raw
endpoint/bucket form over the key resolved from the configured root
`"svc/"`, not from the caller-supplied `"caller/"`. -/
theorem c7_witness :
    ("cert.pdf" : String) ≠ "" ∧
    GetObjectURL exampleManager examplePath "cert.pdf"
      = .ok "https://s3.example.com/mybucket/svc/products/42/cert.pdf" :=
  ⟨by decide,
   (c7_getObjectURL_forms exampleManager examplePath "cert.pdf"
      (by decide)).trans (by decide)⟩

/-- C8: for a non-empty file name, `GetUploadPresignedURL` presigns
with the supplied expiry, except that a zero expiry is replaced by the
configured default; with an empty file name it returns the
invalid-input error and issues no client call. -/
theorem c8_presign_expiry (r : s3Manager) (sp : StoragePath)
    (fileName : String) (expireTime : Int)
    (presignResp : Except String String) :
    (fileName ≠ "" →
      (GetUploadPresignedURL r sp fileName expireTime presignResp).2
        = [S3Call.presignPutObject r.cfg.Name
            (GetCatalogPattern r { sp with RootCatalog := r.cfg.RootCatalog }
              ++ fileName)
            (if expireTime = 0 then r.cfg.PresignedURLExpireTime
             else expireTime)]) ∧
    GetUploadPresignedURL r sp "" expireTime presignResp
      = (.error "GetUploadPresignedURL: file name is empty", []) := by
  constructor
  · intro h
    simp only [GetUploadPresignedURL]
    rw [if_neg h]
    cases presignResp <;> rfl
  · simp [GetUploadPresignedURL]

/-- C8 witness: with expiry 0 the presign request carries the
configured default 900; with expiry 60 it carries 60 verbatim. -/
theorem c8_witness :
    ("f.jpg" : String) ≠ "" ∧
    (GetUploadPresignedURL exampleManager examplePath "f.jpg" 0 (.ok "u")).2
      = [S3Call.presignPutObject "mybucket" "svc/products/42/f.jpg" 900] ∧
    (GetUploadPresignedURL exampleManager examplePath "f.jpg" 60 (.ok "u")).2
      = [S3Call.presignPutObject "mybucket" "svc/products/42/f.jpg" 60] :=
  ⟨by decide,
   ((c8_presign_expiry exampleManager examplePath "f.jpg" 0 (.ok "u")).1
      (by decide)).trans (by decide),
   ((c8_presign_expiry exampleManager examplePath "f.jpg" 60 (.ok "u")).1
      (by decide)).trans (by decide)⟩

/-- C9: on a successful listing, `GetFiles` returns one URL per present
(non-nil) key, each `endpoint/bucket/key` in raw form; nil keys are
skipped without error, and the result is unchanged under any CDN
setting — no CDN rewriting is applied. -/
theorem c9_getFiles_raw_urls (r : s3Manager) (keyPrefix : String)
    (objs : List (Option String)) :
    GetFiles r keyPrefix (.ok objs)
      = (.ok ((objs.filterMap id).map
            (fun key => r.cfg.Endpoint ++ "/" ++ r.cfg.Name ++ "/" ++ key)),
         [S3Call.listObjectsV2 r.cfg.Name keyPrefix]) ∧
    ∀ cdn : String,
      GetFiles { r with cfg := { r.cfg with CDN := cdn } } keyPrefix (.ok objs)
        = GetFiles r keyPrefix (.ok objs) := by
  constructor
  · simp only [GetFiles, filterMap_map_eq]
  · intro cdn
    rfl

/-- C10: with an unregistered catalog type and an empty file name,
`DeleteFiles` issues its listing with the empty string as prefix — the
configured `RootCatalog` never reaches the prefix, because the resolver
returns `""` wholesale on a registry miss — so the delete-candidate set
is every object in the bucket. -/
theorem c10_unregistered_delete_lists_whole_bucket (r : s3Manager)
    (sp : StoragePath) (listResp : Except String (List (Option String)))
    (deleteResp : Except String Unit)
    (h : lookupCatalog r.storagePaths sp.CatalogType = none) :
    (DeleteFiles r sp "" listResp deleteResp).2.head?
      = some (.listObjectsV2 r.cfg.Name "") := by
  have hpat : GetCatalogPattern r { sp with RootCatalog := r.cfg.RootCatalog }
      = "" := getCatalogPattern_of_miss r _ h
  simp only [DeleteFiles, hpat]
  cases listResp with
  | error e => rfl
  | ok contents =>
    cases deleteResp with
    | error e => by_cases hc : contents.length = 0 <;> simp [hc]
    | ok u => by_cases hc : contents.length = 0 <;> simp [hc]

/-- C10 witness: the example manager has root catalog `"svc/"` and no
`"user"` registration; deleting with an empty file name lists under the
empty prefix. -/
theorem c10_witness :
    lookupCatalog exampleManager.storagePaths ("user" : CatalogType) = none ∧
    (DeleteFiles exampleManager
        { RootCatalog := "caller/", CatalogType := "user", EntityID := 1,
          CustomPath := "" } "" (.ok [some "k1"]) (.ok ())).2.head?
      = some (.listObjectsV2 "mybucket" "") :=
  ⟨by decide,
   c10_unregistered_delete_lists_whole_bucket exampleManager
     { RootCatalog := "caller/", CatalogType := "user", EntityID := 1,
       CustomPath := "" } (.ok [some "k1"]) (.ok ()) (by decide)⟩

end S3M
